import Mathlib

/-!
Verification of the keccc compiler core against its specification.

This file gives a shallow embedding, in Lean 4, of the parts of the keccc
compiler (a small C-subset compiler emitting NASM x86-64 or AArch64 assembly)
that the checked properties speak about:

* the primitive-type system and the operator-context coercion
  (`src/types.c`: `isIntegerType`, `isPointerType`, `pointerToPrimitiveType`,
  `modifyASTType` — declared in `decl.h` under the later name
  `coerceASTTypeForOp`),
* the scanner's character / string-literal scanning (`src/scan.c`:
  `scanCharacter`, `scanString`),
* the expression parser's integer-literal, unary-minus and assignment
  handling (`src/expr.c`: `primary`, `prefix`, `binexpr`),
* the global symbol table (`src/symbol.c`: `findGlobalSymbol`,
  `addGlobalSymbol`),
* the generic code generator's IF lowering and label allocator (`src/gen.c`:
  `codegenGetLabelNumber`, `codegenIfStatementAST`) and the NASM backend's
  compare-and-jump and register pool (`src/cgn/nasm/cgn_stmt.c`:
  `nasmCompareAndJump`; `src/cgn/nasm/cgn_regs.c`: `nasmResetRegisterPool`,
  `allocateRegister`, `freeRegister`).

C machine integers are modelled as `Nat`/`Int` (no value in these functions
approaches an overflow boundary), nullable C pointers as `Option`, and fatal
errors (`logFatal*` / `exit(1)`) as `none` results.
-/

/-! ## Enumerations (src/defs.h) -/

/-- Primitive type enumerator `P_NONE` (no type). -/
def P_NONE : Nat := 0
/-- Primitive type enumerator `P_VOID`. -/
def P_VOID : Nat := 1
/-- Primitive type enumerator `P_CHAR` (1 byte). -/
def P_CHAR : Nat := 2
/-- Primitive type enumerator `P_INT` (4 bytes). -/
def P_INT : Nat := 3
/-- Primitive type enumerator `P_LONG` (8 bytes). -/
def P_LONG : Nat := 4
/-- Primitive type enumerator `P_VOIDPTR` (pointer to void). -/
def P_VOIDPTR : Nat := 5
/-- Primitive type enumerator `P_CHARPTR` (pointer to char). -/
def P_CHARPTR : Nat := 6
/-- Primitive type enumerator `P_INTPTR` (pointer to int). -/
def P_INTPTR : Nat := 7
/-- Primitive type enumerator `P_LONGPTR` (pointer to long). -/
def P_LONGPTR : Nat := 8

/-- AST operation enumerator `A_NOTHING` (= 0 in src/defs.h). -/
def A_NOTHING : Nat := 0
/-- AST operation enumerator `A_ASSIGN` (= 1 in src/defs.h). -/
def A_ASSIGN : Nat := 1
/-- AST operation enumerator `A_ADD`. -/
def A_ADD : Nat := 2
/-- AST operation enumerator `A_SUBTRACT`. -/
def A_SUBTRACT : Nat := 3
/-- AST operation enumerator `A_MULTIPLY`. -/
def A_MULTIPLY : Nat := 4
/-- AST operation enumerator `A_DIVIDE`. -/
def A_DIVIDE : Nat := 5
/-- AST operation enumerator `A_EQ`. -/
def A_EQ : Nat := 6
/-- AST operation enumerator `A_NE`. -/
def A_NE : Nat := 7
/-- AST operation enumerator `A_LT`. -/
def A_LT : Nat := 8
/-- AST operation enumerator `A_GT`. -/
def A_GT : Nat := 9
/-- AST operation enumerator `A_LE`. -/
def A_LE : Nat := 10
/-- AST operation enumerator `A_GE`. -/
def A_GE : Nat := 11
/-- AST operation enumerator `A_INTEGERLITERAL`. -/
def A_INTEGERLITERAL : Nat := 12
/-- AST operation enumerator `A_STRINGLITERAL`. -/
def A_STRINGLITERAL : Nat := 13
/-- AST operation enumerator `A_IDENTIFIER`. -/
def A_IDENTIFIER : Nat := 14
/-- AST operation enumerator `A_GLUE`. -/
def A_GLUE : Nat := 15
/-- AST operation enumerator `A_IF`. -/
def A_IF : Nat := 16
/-- AST operation enumerator `A_WHILE`. -/
def A_WHILE : Nat := 17
/-- AST operation enumerator `A_FUNCTION`. -/
def A_FUNCTION : Nat := 18
/-- AST operation enumerator `A_WIDENTYPE` (widen an integer type). -/
def A_WIDENTYPE : Nat := 19
/-- AST operation enumerator `A_RETURN`. -/
def A_RETURN : Nat := 20
/-- AST operation enumerator `A_FUNCTIONCALL`. -/
def A_FUNCTIONCALL : Nat := 21
/-- AST operation enumerator `A_DEREFERENCE`. -/
def A_DEREFERENCE : Nat := 22
/-- AST operation enumerator `A_ADDRESSOF`. -/
def A_ADDRESSOF : Nat := 23
/-- AST operation enumerator `A_SCALETYPE` (scale for pointer arithmetic). -/
def A_SCALETYPE : Nat := 24
/-- AST operation enumerator `A_LOGICALNEGATE` (unary arithmetic negation, used
by the `T_MINUS` case of the parser's prefix-expression function in
src/expr.c). The revision of src/defs.h carrying this enumerator is not in the
provided sources; only its distinctness from the other enumerators is used, so
it is placed on the next free value. -/
def A_LOGICALNEGATE : Nat := 25

/-- Sentinel: `NOREG` (= -1), returned where no register is produced. -/
def NOREG : Int := -1
/-- Sentinel: `NOLABEL` (= 0), passed where no jump target is meaningful. -/
def NOLABEL : Int := 0

/-! ## AST nodes (src/defs.h `struct ASTnode`, src/tree.c constructors) -/

/-- The AST node of src/defs.h: operation code, primitive result type, the
lvalue/rvalue flag, up to three children (C child pointers are nullable, hence
`Option`), and the integer payload `v` (a C union of `intvalue`,
`identifierIndex` and `size`, all `int`-sized). -/
structure ASTnode where
  op : Nat
  primitiveType : Nat
  isRvalue : Bool
  left : Option ASTnode
  middle : Option ASTnode
  right : Option ASTnode
  v : Int
deriving Repr

/-- Modelled from the spec: `makeASTNode` (src/tree.c is absent from the
provided sources; the constructor is modelled from its declaration in
src/decl.h and spec §4.4: a freshly allocated node carrying exactly the given
operation, type, children and payload, with no validation). The `isRvalue`
flag of a fresh node is zero-initialised, i.e. `false`. -/
def makeASTNode (op primitiveType : Nat) (left middle right : Option ASTnode)
    (intvalue : Int) : ASTnode :=
  { op := op, primitiveType := primitiveType, isRvalue := false,
    left := left, middle := middle, right := right, v := intvalue }

/-- Modelled from the spec: `makeASTLeaf` (src/tree.c absent; per src/decl.h
and spec §4.4 a leaf is a node with no children). -/
def makeASTLeaf (op primitiveType : Nat) (intvalue : Int) : ASTnode :=
  makeASTNode op primitiveType none none none intvalue

/-- Modelled from the spec: `makeASTUnary` (src/tree.c absent; per src/decl.h
and spec §4.4 a unary node has only a left child). The child argument is an
`Option` because C callers may pass a NULL pointer. -/
def makeASTUnary (op primitiveType : Nat) (left : Option ASTnode)
    (intvalue : Int) : ASTnode :=
  makeASTNode op primitiveType left none none intvalue

/-! ## Primitive type sizes (src/cgn/nasm/cgn_expr.c) -/

/-- Size table `primitiveSizeInBytes` of the NASM backend
(src/cgn/nasm/cgn_expr.c), indexed by the primitive-type enumerator:
`P_NONE`/`P_VOID` have size 0, `P_CHAR` 1, `P_INT` 4, `P_LONG` 8, and every
pointer type 8. -/
def primitiveSizeInBytes : List Nat := [0, 0, 1, 4, 8, 8, 8, 8, 8]

/-- `nasmGetPrimitiveTypeSize` (src/cgn/nasm/cgn_expr.c): table lookup. For a
type outside `P_NONE..P_LONGPTR` the C exits fatally; the embedding returns 0
there, a value no call site of the embedded code ever queries. -/
def nasmGetPrimitiveTypeSize (type : Nat) : Nat :=
  primitiveSizeInBytes.getD type 0

/-- `codegenGetPrimitiveTypeSize` (src/gen.c) dispatches through the selected
backend operation table (`CG->getPrimitiveTypeSize`); the claims under check
are stated against the NASM x86-64 backend. -/
def codegenGetPrimitiveTypeSize (primitiveType : Nat) : Nat :=
  nasmGetPrimitiveTypeSize primitiveType

/-! ## Type predicates and coercion (src/types.c) -/

/-- `isIntegerType` (src/types.c): true exactly for `P_CHAR`, `P_INT`,
`P_LONG` (the C `switch` with those three `case` labels). -/
def isIntegerType (primitiveType : Nat) : Bool :=
  if primitiveType = P_CHAR then true
  else if primitiveType = P_INT then true
  else if primitiveType = P_LONG then true
  else false

/-- `isPointerType` (src/types.c): true exactly for `P_VOIDPTR`, `P_CHARPTR`,
`P_INTPTR`, `P_LONGPTR`. -/
def isPointerType (primitiveType : Nat) : Bool :=
  if primitiveType = P_VOIDPTR then true
  else if primitiveType = P_CHARPTR then true
  else if primitiveType = P_INTPTR then true
  else if primitiveType = P_LONGPTR then true
  else false

/-- `pointerToPrimitiveType` (src/types.c): the pointee type of a pointer
type. For a non-pointer argument the C logs a fatal internal error; the
embedding returns `P_NONE` there, and the embedded callers only apply it
under an `isPointerType` guard. -/
def pointerToPrimitiveType (primitiveType : Nat) : Nat :=
  if primitiveType = P_VOIDPTR then P_VOID
  else if primitiveType = P_CHARPTR then P_CHAR
  else if primitiveType = P_INTPTR then P_INT
  else if primitiveType = P_LONGPTR then P_LONG
  else P_NONE

/-- Tail of `modifyASTType` (src/types.c lines 129-156): the code after the
integer-integer block, shared here because the C falls through to it both when
that block does not apply and when it applies but neither of its inner early
returns fires (integer types of equal size but different tag — unreachable for
the three integer types). It checks the pointer-on-the-left case, then the
pointer-arithmetic scaling case, and otherwise reports incompatibility
(`return NULL`). Note that when the pointee size is not greater than 1 the
scaling case falls through to the final `return NULL`. -/
def modifyASTTypeTail (treeNode : ASTnode) (leftType rightType operation : Nat) :
    Option ASTnode :=
  -- Pointer type is on the left
  if isPointerType leftType ∧ operation = A_NOTHING ∧ leftType = rightType then
    some treeNode
  -- We can scale only on A_ADD or A_SUBTRACT operation
  else if (operation = A_ADD ∨ operation = A_SUBTRACT) ∧
      isIntegerType leftType ∧ isPointerType rightType then
    -- Scale by the size of the pointed-to type, not by the pointer size
    let rightSize := codegenGetPrimitiveTypeSize (pointerToPrimitiveType rightType)
    if rightSize > 1 then
      some (makeASTUnary A_SCALETYPE rightType (some treeNode) (rightSize : Int))
    else
      none -- falls through to the final `return NULL` of the C function
  else
    none -- Type is not compatible

/-- `modifyASTType` (src/types.c lines 100-157), declared in src/decl.h under
its later name `coerceASTTypeForOp`: the operator-context coercion. Integer
against integer: unchanged when equal, failure when the node's size exceeds
the context's, a widening node when strictly smaller; otherwise the shared
tail handles the pointer cases. -/
def modifyASTType (treeNode : ASTnode) (rightType operation : Nat) :
    Option ASTnode :=
  let leftType := treeNode.primitiveType
  -- Compare scalar integer types
  if isIntegerType leftType ∧ isIntegerType rightType then
    -- Both types are the same, it's ok
    if leftType = rightType then
      some treeNode
    else
      let leftSize := codegenGetPrimitiveTypeSize leftType
      let rightSize := codegenGetPrimitiveTypeSize rightType
      -- Tree's size is too big
      if leftSize > rightSize then
        none
      -- Widen the right size
      else if rightSize > leftSize then
        some (makeASTUnary A_WIDENTYPE rightType (some treeNode) 0)
      else
        modifyASTTypeTail treeNode leftType rightType operation
  else
    modifyASTTypeTail treeNode leftType rightType operation

/-- `coerceASTTypeForOp` is the name src/decl.h declares for the coercion; the
body in src/types.c is `modifyASTType`. -/
def coerceASTTypeForOp (node : ASTnode) (contextType op : Nat) :
    Option ASTnode :=
  modifyASTType node contextType op

/-! ## Scanner: character and string literals (src/scan.c) -/

/-- Buffer length `TEXTLEN` (src/defs.h). -/
def TEXTLEN : Nat := 512

/-- `scanCharacter` (src/scan.c lines 404-436): read one possibly escaped byte
of a character or string literal. The input stream is modelled as the list of
remaining characters; the result is the scanned byte and the rest of the
stream. A backslash followed by one of the ten supported escape characters
yields the escaped byte; an unknown escape is fatal (`logFatalc`), and the
exhausted stream stands for end of input, both modelled as `none`. -/
def scanCharacter : List Char → Option (Char × List Char)
  | [] => none
  | c :: rest =>
    if c = '\\' then
      match rest with
      | [] => none
      | e :: rest2 =>
        if e = 'a' then some ('\x07', rest2)
        else if e = 'b' then some ('\x08', rest2)
        else if e = 'f' then some ('\x0c', rest2)
        else if e = 'n' then some ('\n', rest2)
        else if e = 'r' then some ('\x0d', rest2)
        else if e = 't' then some ('\t', rest2)
        else if e = 'v' then some ('\x0b', rest2)
        else if e = '\\' then some ('\\', rest2)
        else if e = '"' then some ('"', rest2)
        else if e = '\'' then some ('\'', rest2)
        else none -- unknown escape sequence: logFatalc
    else
      some (c, rest) -- Just an ordinary old character!

/-- Loop of `scanString` (src/scan.c lines 467-486). The C iterates `index`
from 0 while `index < TEXTLEN - 1`; here `fuel` is the remaining capacity
`TEXTLEN - 1 - index`, so `fuel = 0` is the buffer-overflow exit (`exit(1)`,
modelled as `none`). Each step scans one byte with `scanCharacter`; a byte
equal to `"` ends the literal (this is the comparison on `scanCharacter`'s
return value that cannot tell an escaped `\"` from the closing quote), any
other byte is stored and scanning continues. The result is the stored buffer
contents and the rest of the input stream. -/
def scanStringAux : Nat → List Char → Option (List Char × List Char)
  | 0, _ => none -- ran out of buffer space: fatal
  | fuel + 1, input =>
    match scanCharacter input with
    | none => none
    | some (c, rest) =>
      if c = '"' then
        some ([], rest) -- NULL terminate the string and return
      else
        match scanStringAux fuel rest with
        | none => none
        | some (buffer, rest2) => some (c :: buffer, rest2)

/-- `scanString` (src/scan.c): scan a string literal body (the characters
after the opening quote) into the text buffer of capacity `TEXTLEN`. -/
def scanString (input : List Char) : Option (List Char × List Char) :=
  scanStringAux (TEXTLEN - 1) input

/-! ## Expression parser pieces (src/expr.c) -/

/-- The `T_INTEGERLITERAL` case of `primary` (src/expr.c lines 158-173): the
leaf node built for an integer literal token whose value is `intvalue`. The
leaf is `P_CHAR`-typed when the value lies in 0..255 and `P_INT`-typed
otherwise, and carries the literal value as payload. -/
def primaryIntegerLiteral (intvalue : Int) : ASTnode :=
  if 0 ≤ intvalue ∧ intvalue ≤ 255 then
    makeASTLeaf A_INTEGERLITERAL P_CHAR intvalue
  else
    makeASTLeaf A_INTEGERLITERAL P_INT intvalue

/-- The `T_MINUS` case of the parser's prefix-expression function
(src/expr.c lines 399-410): mark the parsed operand as an rvalue, coerce it to
`P_INT` (the operation argument is the literal `0`, i.e. `A_NOTHING`), and
build an `A_LOGICALNEGATE` node of type `P_INT` over the coercion's result.
The coercion's result is used without a null check, so a failed coercion puts
an absent child under the negation node. -/
def parseUnaryMinus (tree : ASTnode) : ASTnode :=
  let tree1 := { tree with isRvalue := true }
  makeASTUnary A_LOGICALNEGATE P_INT (coerceASTTypeForOp tree1 P_INT 0) 0

/-- The `A_ASSIGN` branch of `binexpr` (src/expr.c lines 518-543): the parsed
right subtree is marked rvalue and coerced to the left subtree's type with
operation `A_NOTHING`. The C then checks `if (left == NULL)` — but `left` is
the already-parsed (and already-dereferenced) destination subtree, never the
null pointer, so the `logFatal("Incompatible expression in assignment")` path
cannot fire. Left and right are then swapped, the destination (now the right
child) gets `isRvalue = false`, and the `A_ASSIGN` node is built with the
swapped `left`'s type. When the coercion failed, that swapped `left` is the
NULL pointer and the C reads `left->primitiveType` from it — undefined
behavior rather than a diagnosed type error — modelled as `none`. -/
def binexprCombineAssign (left right : ASTnode) : Option ASTnode :=
  let right1 := { right with isRvalue := true }
  match coerceASTTypeForOp right1 left.primitiveType A_NOTHING with
  | some coerced =>
    -- switch left and right around, so that the right expression's code
    -- will be generated before the left expression; mark the destination
    -- (now in the right subtree) as an lvalue
    let dest := { left with isRvalue := false }
    some (makeASTNode A_ASSIGN coerced.primitiveType (some coerced) none
      (some dest) 0)
  | none => none -- C dereferences the NULL coercion result: undefined behavior

/-! ## Global symbol table (src/symbol.c) -/

/-- Symbol table capacity `NSYMBOLS` (src/defs.h). -/
def NSYMBOLS : Nat := 1024

/-- One entry of `SymbolTable` (src/defs.h `struct symbolTable`, with the
storage-class and stack-offset fields set by `updateSymbolTable` in
src/symbol.c). -/
structure symbolTableEntry where
  name : String
  primitiveType : Nat
  structuralType : Nat
  classType : Nat
  endLabel : Nat
  size : Nat
  offset : Nat
deriving Repr, DecidableEq

/-- Storage-class enumerator `C_GLOBAL`. Its numeric value is not used by any
property below, only the fact that `addGlobalSymbol` stores it. -/
def C_GLOBAL : Nat := 0

/-- `findGlobalSymbol` (src/symbol.c lines 14-21): scan the global entries
from index 0 upward and return the first index whose name compares equal
(the C's extra first-character test is an optimization of `strcmp`);
`-1`-for-absent is modelled as `none`. The global region of `SymbolTable` is
modelled as the list of its populated entries. -/
def findGlobalSymbol : List symbolTableEntry → String → Option Nat
  | [], _ => none
  | entry :: rest, s =>
    if s = entry.name then some 0
    else (findGlobalSymbol rest s).map (· + 1)

/-- `addGlobalSymbol` (src/symbol.c lines 123-137): an already-present name
returns its existing slot index with the table untouched; otherwise
`getNewGlobalSymbolIndex` hands out `NextGlobalSymbolIndex` (the list length)
— fatally when it has reached `NSYMBOLS` — and `updateSymbolTable` fills the
new slot (storage class `C_GLOBAL`, offset 0). -/
def addGlobalSymbol (table : List symbolTableEntry) (name : String)
    (primitiveType structuralType endLabel size : Nat) :
    Option (Nat × List symbolTableEntry) :=
  match findGlobalSymbol table name with
  | some slotIndex => some (slotIndex, table) -- symbol already exists
  | none =>
    if NSYMBOLS ≤ table.length then
      none -- Too many global symbols
    else
      some (table.length,
        table ++ [{ name := name, primitiveType := primitiveType,
                    structuralType := structuralType, classType := C_GLOBAL,
                    endLabel := endLabel, size := size, offset := 0 }])

/-! ## NASM register pool (src/cgn/nasm/cgn_regs.c) -/

/-- Number of scratch registers of the NASM backend (`NUMFREEREGISTERS`,
r8-r11). -/
def NUMFREEREGISTERS : Nat := 4

/-- `nasmResetRegisterPool` (src/cgn/nasm/cgn_regs.c lines 47-52): mark every
register of the fixed pool free (`true` = free, as in the C array
`freeRegisters`). -/
def nasmResetRegisterPool (_freeRegisters : List Bool) : List Bool :=
  List.replicate NUMFREEREGISTERS true

/-- `allocateRegister` (src/cgn/nasm/cgn_regs.c lines 60-70): scan the pool
from index 0, mark the first free register used and return its index together
with the new pool; when no register is free the C exits fatally (`none`). -/
def allocateRegister : List Bool → Option (Nat × List Bool)
  | [] => none -- No free registers available
  | b :: rest =>
    if b then some (0, false :: rest)
    else (allocateRegister rest).map (fun p => (p.1 + 1, b :: p.2))

/-- `freeRegister` (src/cgn/nasm/cgn_regs.c lines 78-85): freeing an
already-free register is fatal (`none`); otherwise the register is marked
free. An index outside the pool makes the C read out of bounds; the embedding
returns `none` there and the properties below only use in-bounds indices. -/
def freeRegister (freeRegisters : List Bool) (r : Nat) : Option (List Bool) :=
  match freeRegisters.get? r with
  | some true => none -- Error: register is already free
  | some false => some (freeRegisters.set r true)
  | none => none

/-! ## Generic code generator: labels and IF lowering (src/gen.c) -/

/-- `codegenGetLabelNumber` (src/gen.c lines 19-22): `static int id = 1;
return (id++);`. The static counter is threaded explicitly: the result is the
current counter value and the incremented counter. -/
def codegenGetLabelNumber (id : Nat) : Nat × Nat :=
  (id, id + 1)

/-- Initial value of the static label counter (`static int id = 1`). -/
def initialLabelId : Nat := 1

/-- Observable actions of the generic code generator, in emission order. A
`genAST` event stands for the recursive `codegenAST(subtree, label,
parentASTop)` call on a child; the other events are the backend invocations
`CG->resetRegisters` (via `codegenResetRegisters`), `CG->jump` (via
`codegenJump`) and `CG->label` (via `codegenLabel`). -/
inductive GenEvent where
  | genAST (subtree : Option ASTnode) (label : Int) (parentASTop : Nat)
  | resetRegisters
  | jump (label : Int)
  | emitLabel (label : Int)
deriving Repr

/-- `codegenIfStatementAST` (src/gen.c lines 83-120): lower an `A_IF` node
`n` (condition in `left`, then-branch in `middle`, optional else-branch in
`right`). Returns the emitted event trace, the new label counter, and the
function's return value (`NOREG`). The C leaves `labelEndStatement`
uninitialized when there is no else-branch; it is never read in that case, and
the stand-in value 0 below is likewise never emitted. -/
def codegenIfStatementAST (n : ASTnode) (id0 : Nat) :
    List GenEvent × Nat × Int :=
  let p1 := codegenGetLabelNumber id0
  let labelFalseStatement := p1.1
  let p2 := if n.right.isSome then codegenGetLabelNumber p1.2 else (0, p1.2)
  let labelEndStatement := p2.1
  let events :=
    -- Jump to false label when condition is FALSE
    [GenEvent.genAST n.left (Int.ofNat labelFalseStatement) n.op,
     GenEvent.resetRegisters,
     -- Generate the true branch's compound statement
     GenEvent.genAST n.middle NOLABEL n.op,
     GenEvent.resetRegisters]
    ++ (if n.right.isSome then [GenEvent.jump (Int.ofNat labelEndStatement)]
        else [])
    ++ [GenEvent.emitLabel (Int.ofNat labelFalseStatement)]
    ++ (if n.right.isSome then
          -- Optional ELSE clause: note the C passes NOREG as the label here
          [GenEvent.genAST n.right NOREG n.op,
           GenEvent.resetRegisters,
           GenEvent.emitLabel (Int.ofNat labelEndStatement)]
        else [])
  (events, p2.2, NOREG)

/-- The comparison case of `codegenAST` (src/gen.c lines 244-259): a
comparison node under an `A_IF` or `A_WHILE` parent is emitted as a
compare-and-jump to the supplied label; under any other parent as a
compare-and-set into a register. -/
def codegenComparisonEmitsJump (parentASTop : Nat) : Bool :=
  parentASTop = A_IF ∨ parentASTop = A_WHILE

/-! ## NASM compare-and-jump (src/cgn/nasm/cgn_stmt.c) -/

/-- Conditional-jump mnemonics of the x86-64 backend. -/
inductive JumpMnemonic where
  | jne | je | jge | jg | jle | jl
deriving Repr, DecidableEq

/-- Instructions emitted by `nasmCompareAndJump`: the `cmp` of the two operand
registers and the conditional jump to a numbered label. -/
inductive NasmInstr where
  | cmp (r1 r2 : Nat)
  | jcc (mnemonic : JumpMnemonic) (label : Int)
deriving Repr, DecidableEq

/-- The mnemonic `nasmCompareAndJump` (src/cgn/nasm/cgn_stmt.c lines 159-189)
selects for each comparison operator: the jump is on the INVERTED condition
(the `switch` emits `jne` for `A_EQ`, `je` for `A_NE`, `jge` for `A_LT`, `jg`
for `A_LE`, `jle` for `A_GT`, `jl` for `A_GE`); any other operator is rejected
fatally (both the entry guard and the `switch` default call `exit(1)`). -/
def nasmInvertedJumpMnemonic (ASTop : Nat) : Option JumpMnemonic :=
  if ASTop = A_EQ then some JumpMnemonic.jne
  else if ASTop = A_NE then some JumpMnemonic.je
  else if ASTop = A_LT then some JumpMnemonic.jge
  else if ASTop = A_LE then some JumpMnemonic.jg
  else if ASTop = A_GT then some JumpMnemonic.jle
  else if ASTop = A_GE then some JumpMnemonic.jl
  else none

/-- `nasmCompareAndJump` (src/cgn/nasm/cgn_stmt.c lines 145-194): emit
`cmp r1, r2` followed by the inverted-condition jump to the label, then reset
the register pool and return `NOREG`. Modelled as the emitted instruction list
paired with the return value; the fatal rejection of a non-comparison operator
is `none`. -/
def nasmCompareAndJump (ASTop r1 r2 : Nat) (label : Int) :
    Option (List NasmInstr × Int) :=
  match nasmInvertedJumpMnemonic ASTop with
  | none => none -- Error: Invalid AST operation: exit(1)
  | some m => some ([NasmInstr.cmp r1 r2, NasmInstr.jcc m label], NOREG)

/-- Semantics of an x86-64 conditional jump following `cmp a, b` on signed
register values `a` and `b`: whether the jump is taken. -/
def jumpTaken (m : JumpMnemonic) (a b : Int) : Prop :=
  match m with
  | JumpMnemonic.jne => a ≠ b
  | JumpMnemonic.je => a = b
  | JumpMnemonic.jge => b ≤ a
  | JumpMnemonic.jg => b < a
  | JumpMnemonic.jle => a ≤ b
  | JumpMnemonic.jl => a < b

/-! ## Helper lemmas -/

/-- Enumeration of the integer primitive types. -/
lemma integer_type_cases {t : Nat} (h : isIntegerType t = true) :
    t = P_CHAR ∨ t = P_INT ∨ t = P_LONG := by
  unfold isIntegerType at h
  split_ifs at h with h1 h2 h3
  · exact Or.inl h1
  · exact Or.inr (Or.inl h2)
  · exact Or.inr (Or.inr h3)

/-- Enumeration of the pointer primitive types. -/
lemma pointer_type_cases {t : Nat} (h : isPointerType t = true) :
    t = P_VOIDPTR ∨ t = P_CHARPTR ∨ t = P_INTPTR ∨ t = P_LONGPTR := by
  unfold isPointerType at h
  split_ifs at h with h1 h2 h3 h4
  · exact Or.inl h1
  · exact Or.inr (Or.inl h2)
  · exact Or.inr (Or.inr (Or.inl h3))
  · exact Or.inr (Or.inr (Or.inr h4))

/-- An integer primitive type is not a pointer type. -/
lemma integer_not_pointer {t : Nat} (h : isIntegerType t = true) :
    isPointerType t = false := by
  obtain h1 | h1 | h1 := integer_type_cases h <;> subst h1 <;> rfl

/-- A pointer primitive type is not an integer type. -/
lemma pointer_not_integer {t : Nat} (h : isPointerType t = true) :
    isIntegerType t = false := by
  obtain h1 | h1 | h1 | h1 := pointer_type_cases h <;> subst h1 <;> rfl

/-! ## C3 -/

/-- C3: coercing a node of integer primitive type against an integer context
type (any operation): equal types are returned unchanged; a node whose type's
size strictly exceeds the context's fails (no implicit narrowing); a node
whose type's size is strictly smaller becomes an `A_WIDENTYPE` unary node
over the original node with the context type. -/
theorem modifyASTType_integer_rules (n : ASTnode) (ctx op : Nat)
    (hn : isIntegerType n.primitiveType = true)
    (hctx : isIntegerType ctx = true) :
    (n.primitiveType = ctx → modifyASTType n ctx op = some n) ∧
    (codegenGetPrimitiveTypeSize ctx <
        codegenGetPrimitiveTypeSize n.primitiveType →
      modifyASTType n ctx op = none) ∧
    (codegenGetPrimitiveTypeSize n.primitiveType <
        codegenGetPrimitiveTypeSize ctx →
      modifyASTType n ctx op =
        some (makeASTUnary A_WIDENTYPE ctx (some n) 0)) := by
  refine ⟨fun heq => ?_, fun hlt => ?_, fun hlt => ?_⟩
  · simp [modifyASTType, hn, hctx, heq]
  · have hne : ¬ n.primitiveType = ctx := by
      intro he
      rw [he] at hlt
      exact lt_irrefl _ hlt
    simp [modifyASTType, hn, hctx, hne, hlt]
  · have hne : ¬ n.primitiveType = ctx := by
      intro he
      rw [he] at hlt
      exact lt_irrefl _ hlt
    have hng : ¬ (codegenGetPrimitiveTypeSize ctx <
        codegenGetPrimitiveTypeSize n.primitiveType) :=
      Nat.not_lt.mpr (Nat.le_of_lt hlt)
    simp [modifyASTType, hn, hctx, hne, hng, hlt]

/-- Witness for C3: coercing a `P_CHAR` literal leaf (size 1) against context
`P_INT` (size 4) yields the widening node. -/
theorem modifyASTType_integer_rules_witness :
    modifyASTType (makeASTLeaf A_INTEGERLITERAL P_CHAR 5) P_INT A_ADD =
      some (makeASTUnary A_WIDENTYPE P_INT
        (some (makeASTLeaf A_INTEGERLITERAL P_CHAR 5)) 0) :=
  (modifyASTType_integer_rules (makeASTLeaf A_INTEGERLITERAL P_CHAR 5)
    P_INT A_ADD rfl rfl).2.2 (by decide)

/-! ## C1 -/

/-- C1: under `A_ADD`/`A_SUBTRACT`, an integer node coerced against a pointer
context whose pointee size exceeds 1 becomes an `A_SCALETYPE` unary node of
the context pointer type whose payload is the pointee byte size (first
conjunct). The claim's second half fails on the code: when the pointee size
is exactly 1 (char-pointer context) `modifyASTType` falls through to
`return NULL`, so the coercion fails instead of returning the node unchanged
(second conjunct evaluates that failing case). -/
theorem modifyASTType_pointer_scale (n : ASTnode) (ctx op : Nat)
    (hn : isIntegerType n.primitiveType = true)
    (hctx : isPointerType ctx = true)
    (hop : op = A_ADD ∨ op = A_SUBTRACT)
    (hsz : 1 < codegenGetPrimitiveTypeSize (pointerToPrimitiveType ctx)) :
    modifyASTType n ctx op =
      some (makeASTUnary A_SCALETYPE ctx (some n)
        (Int.ofNat (codegenGetPrimitiveTypeSize (pointerToPrimitiveType ctx)))) ∧
    modifyASTType (makeASTLeaf A_IDENTIFIER P_INT 0) P_CHARPTR A_ADD = none := by
  refine ⟨?_, rfl⟩
  have hnotint : isIntegerType ctx = false := pointer_not_integer hctx
  have hnotptr : isPointerType n.primitiveType = false := integer_not_pointer hn
  have hopne : ¬ op = A_NOTHING := by
    obtain h | h := hop <;> subst h <;> decide
  simp [modifyASTType, modifyASTTypeTail, hn, hnotint, hnotptr, hctx, hop,
    hopne, hsz]

/-- Witness for C1: an `int` index coerced against `int*` under `A_ADD` is
wrapped in a scale-by-4 node. -/
theorem modifyASTType_pointer_scale_witness :
    modifyASTType (makeASTLeaf A_IDENTIFIER P_INT 7) P_INTPTR A_ADD =
      some (makeASTUnary A_SCALETYPE P_INTPTR
        (some (makeASTLeaf A_IDENTIFIER P_INT 7)) (Int.ofNat 4)) :=
  (modifyASTType_pointer_scale (makeASTLeaf A_IDENTIFIER P_INT 7) P_INTPTR
    A_ADD rfl rfl (Or.inl rfl) (by decide)).1

/-! ## C10 -/

/-- C10: the parser's unary-minus case coerces its operand to `P_INT`
unconditionally and uses the result with no null check, so a `P_LONG` operand
(size 8, larger than `int`) puts an absent child under the negation node,
while `P_CHAR` (widened) and `P_INT` (unchanged) operands succeed; the built
node is always an `A_LOGICALNEGATE` node of type `P_INT`. -/
theorem parseUnaryMinus_spec (tree : ASTnode) :
    (tree.primitiveType = P_LONG → (parseUnaryMinus tree).left = none) ∧
    (tree.primitiveType = P_CHAR → (parseUnaryMinus tree).left =
      some (makeASTUnary A_WIDENTYPE P_INT
        (some { tree with isRvalue := true }) 0)) ∧
    (tree.primitiveType = P_INT → (parseUnaryMinus tree).left =
      some { tree with isRvalue := true }) ∧
    (parseUnaryMinus tree).op = A_LOGICALNEGATE ∧
    (parseUnaryMinus tree).primitiveType = P_INT := by
  refine ⟨fun h => ?_, fun h => ?_, fun h => ?_, rfl, rfl⟩ <;>
    simp [parseUnaryMinus, coerceASTTypeForOp, modifyASTType,
      modifyASTTypeTail, makeASTUnary, makeASTNode, h, isIntegerType,
      isPointerType, pointerToPrimitiveType, codegenGetPrimitiveTypeSize,
      nasmGetPrimitiveTypeSize, primitiveSizeInBytes, P_CHAR, P_INT, P_LONG,
      P_VOIDPTR, P_CHARPTR, P_INTPTR, P_LONGPTR, A_NOTHING, A_ADD,
      A_SUBTRACT, A_WIDENTYPE]

/-- Witness for C10: negating a `P_LONG` identifier leaf yields a negation
node with an absent child. -/
theorem parseUnaryMinus_spec_witness :
    (parseUnaryMinus (makeASTLeaf A_IDENTIFIER P_LONG 0)).left = none :=
  (parseUnaryMinus_spec (makeASTLeaf A_IDENTIFIER P_LONG 0)).1 rfl

/-! ## C8 -/

/-- C8: the integer-literal leaf built by `primary` is `P_CHAR`-typed exactly
when the literal's value lies in 0..255 and `P_INT`-typed otherwise, and its
payload is the literal's value. -/
theorem primary_integer_literal_type (v : Int) :
    ((primaryIntegerLiteral v).primitiveType = P_CHAR ↔ (0 ≤ v ∧ v ≤ 255)) ∧
    ((primaryIntegerLiteral v).primitiveType = P_INT ↔ ¬ (0 ≤ v ∧ v ≤ 255)) ∧
    (primaryIntegerLiteral v).op = A_INTEGERLITERAL ∧
    (primaryIntegerLiteral v).v = v := by
  by_cases h : 0 ≤ v ∧ v ≤ 255 <;>
    simp [primaryIntegerLiteral, h, makeASTLeaf, makeASTNode, P_CHAR, P_INT]

/-! ## C2 -/

/-- C2: evaluation of `scanString` on string-literal bodies. The claim holds
for escapes other than `\"` (second and third conjuncts: each escape stores
its single escaped byte and scanning continues to the closing quote). It
fails for `\"`: in the first conjunct the literal body `a\"b"` should, per
the claim, store the bytes `a`, `"`, `b` and end at the final quote, but
`scanString` compares `scanCharacter`'s return value against `"`, which
cannot tell the escaped quote from a closing quote, so it stores only `a`,
ends the literal at the escape, and leaves `b"` unconsumed. -/
theorem scanString_escape_eval :
    scanString ['a', '\\', '"', 'b', '"'] = some (['a'], ['b', '"']) ∧
    scanString ['a', '\\', 'n', 'b', '"'] = some (['a', '\n', 'b'], []) ∧
    scanString ['\\', '\\', '\\', 't', 'x', '"'] =
      some (['\\', '\t', 'x'], []) := by
  refine ⟨rfl, rfl, rfl⟩

/-! ## C4 -/

/-- C4: the assignment combination of `binexpr`. When the coercion of the
rvalue-marked right subtree to the left subtree's type succeeds, the built
`A_ASSIGN` node has the coerced right expression as its left child and the
destination (the original left subtree, with `isRvalue` cleared) as its right
child, typed by the coerced expression (first conjunct; post-order emission
therefore produces the value-producing side first). The claim's
failure-is-fatal half fails on the code: the only guard is `if (left ==
NULL)` on the never-null destination subtree, so a failed coercion — second
conjunct, assigning a `P_LONG` identifier to a `P_CHAR` identifier — is not
diagnosed; the NULL coercion result is installed as the new left child and
dereferenced, which is undefined behavior (`none`), not a fatal type error. -/
theorem binexprCombineAssign_spec :
    (∀ left right coerced : ASTnode,
      coerceASTTypeForOp { right with isRvalue := true } left.primitiveType
          A_NOTHING = some coerced →
      binexprCombineAssign left right =
        some (makeASTNode A_ASSIGN coerced.primitiveType (some coerced) none
          (some { left with isRvalue := false }) 0) ∧
      ({ left with isRvalue := false } : ASTnode).isRvalue = false) ∧
    binexprCombineAssign (makeASTLeaf A_IDENTIFIER P_CHAR 0)
      (makeASTLeaf A_IDENTIFIER P_LONG 1) = none := by
  refine ⟨fun left right coerced h => ⟨?_, rfl⟩, rfl⟩
  simp [binexprCombineAssign, h]

/-- Witness for C4: assigning a `P_CHAR` literal to a `P_INT` variable
coerces the right side to a widening node and swaps the children. -/
theorem binexprCombineAssign_spec_witness :
    binexprCombineAssign (makeASTLeaf A_IDENTIFIER P_INT 0)
      (makeASTLeaf A_INTEGERLITERAL P_CHAR 7) =
    some (makeASTNode A_ASSIGN P_INT
      (some (makeASTUnary A_WIDENTYPE P_INT
        (some { makeASTLeaf A_INTEGERLITERAL P_CHAR 7 with isRvalue := true })
        0))
      none
      (some { makeASTLeaf A_IDENTIFIER P_INT 0 with isRvalue := false }) 0) :=
  ((binexprCombineAssign_spec.1 (makeASTLeaf A_IDENTIFIER P_INT 0)
    (makeASTLeaf A_INTEGERLITERAL P_CHAR 7)
    (makeASTUnary A_WIDENTYPE P_INT
      (some { makeASTLeaf A_INTEGERLITERAL P_CHAR 7 with isRvalue := true })
      0) rfl).1)

/-! ## C7 -/

/-- Appending a fresh entry puts its name at the old length. -/
lemma findGlobalSymbol_append_fresh (table : List symbolTableEntry)
    (e : symbolTableEntry) (h : findGlobalSymbol table e.name = none) :
    findGlobalSymbol (table ++ [e]) e.name = some table.length := by
  induction table with
  | nil => simp [findGlobalSymbol]
  | cons a rest ih =>
    by_cases hc : e.name = a.name
    · simp [findGlobalSymbol, hc] at h
    · have h2 : findGlobalSymbol rest e.name = none := by
        simpa [findGlobalSymbol, hc, Option.map_eq_none'] using h
      simp [findGlobalSymbol, hc, ih h2]

/-- A name different from the replicated entry's name is not found. -/
lemma findGlobalSymbol_replicate (n : Nat) (e : symbolTableEntry) (s : String)
    (h : ¬ s = e.name) :
    findGlobalSymbol (List.replicate n e) s = none := by
  induction n with
  | zero => rfl
  | succ k ih => simp [List.replicate_succ, findGlobalSymbol, h, ih]

/-- C7: `addGlobalSymbol` returns an index at which a subsequent
`findGlobalSymbol` finds the name (first conjunct); adding an
already-present name returns the existing slot's index and leaves the table
unchanged (second conjunct); adding a fresh name with all `NSYMBOLS` slots
taken is fatal (third conjunct). -/
theorem addGlobalSymbol_spec (table : List symbolTableEntry) (name : String)
    (primitiveType structuralType endLabel size : Nat) :
    (∀ (i : Nat) (t2 : List symbolTableEntry),
      addGlobalSymbol table name primitiveType structuralType endLabel size =
        some (i, t2) →
      findGlobalSymbol t2 name = some i) ∧
    (∀ i : Nat, findGlobalSymbol table name = some i →
      addGlobalSymbol table name primitiveType structuralType endLabel size =
        some (i, table)) ∧
    (findGlobalSymbol table name = none → NSYMBOLS ≤ table.length →
      addGlobalSymbol table name primitiveType structuralType endLabel size =
        none) := by
  refine ⟨fun i t2 h => ?_, fun i h => ?_, fun h hlen => ?_⟩
  · unfold addGlobalSymbol at h
    cases hf : findGlobalSymbol table name with
    | some j =>
      rw [hf] at h
      simp at h
      obtain ⟨rfl, rfl⟩ := h
      exact hf
    | none =>
      rw [hf] at h
      by_cases hlen : NSYMBOLS ≤ table.length
      · simp [hlen] at h
      · simp [hlen] at h
        obtain ⟨rfl, rfl⟩ := h
        exact findGlobalSymbol_append_fresh table _ hf
  · unfold addGlobalSymbol
    rw [h]
  · unfold addGlobalSymbol
    rw [h, if_pos hlen]

/-- Concrete table entry used by the C7 witness. -/
def testEntryA : symbolTableEntry := ⟨"a", P_INT, 0, C_GLOBAL, 0, 0, 0⟩

/-- Concrete table entry used by the C7 witness (full-table case). -/
def testEntryX : symbolTableEntry := ⟨"x", 0, 0, 0, 0, 0, 0⟩

/-- Witness for C7: a fresh insert into the empty table lands on slot 0 and
is found there; re-adding it returns slot 0 with the table unchanged; adding
a fresh name to a full table of 1024 entries is fatal. -/
theorem addGlobalSymbol_spec_witness :
    findGlobalSymbol [testEntryA] "a" = some 0 ∧
    addGlobalSymbol [testEntryA] "a" P_INT 0 0 0 = some (0, [testEntryA]) ∧
    addGlobalSymbol (List.replicate 1024 testEntryX) "y" P_INT 0 0 0 =
      none := by
  refine ⟨?_, ?_, ?_⟩
  · exact (addGlobalSymbol_spec [] "a" P_INT 0 0 0).1 0 _ rfl
  · exact (addGlobalSymbol_spec _ "a" P_INT 0 0 0).2.1 0 rfl
  · exact (addGlobalSymbol_spec _ "y" P_INT 0 0 0).2.2
      (findGlobalSymbol_replicate 1024 _ "y" (by decide))
      (by rw [List.length_replicate]; decide)

/-! ## C9 -/

/-- `allocateRegister` fails exactly when no register is free. -/
lemma allocateRegister_none_iff (s : List Bool) :
    allocateRegister s = none ↔ ∀ b ∈ s, b = false := by
  induction s with
  | nil => simp [allocateRegister]
  | cons b rest ih =>
    cases b
    · simp [allocateRegister, Option.map_eq_none', ih]
    · simp [allocateRegister]

/-- A successful `allocateRegister` returns the lowest free index, marked
used. -/
lemma allocateRegister_some (s : List Bool) (i : Nat) (s2 : List Bool)
    (h : allocateRegister s = some (i, s2)) :
    s.get? i = some true ∧ (∀ j, j < i → s.get? j = some false) ∧
    s2 = s.set i false := by
  induction s generalizing i s2 with
  | nil => cases h
  | cons b rest ih =>
    cases b
    · rw [show allocateRegister (false :: rest) =
          (allocateRegister rest).map (fun p => (p.1 + 1, false :: p.2))
          from rfl] at h
      cases hrec : allocateRegister rest with
      | none => rw [hrec] at h; cases h
      | some p =>
        obtain ⟨i2, s3⟩ := p
        rw [hrec] at h
        simp only [Option.map_some', Option.some.injEq, Prod.mk.injEq] at h
        obtain ⟨hi, hs⟩ := h
        subst hi
        subst hs
        obtain ⟨hget, hlow, hset⟩ := ih i2 s3 hrec
        refine ⟨hget, fun j hj => ?_, ?_⟩
        · cases j with
          | zero => rfl
          | succ k => exact hlow k (Nat.lt_of_succ_lt_succ hj)
        · rw [hset]
          rfl
    · rw [show allocateRegister (true :: rest) = some (0, false :: rest)
          from rfl] at h
      simp only [Option.some.injEq, Prod.mk.injEq] at h
      obtain ⟨hi, hs⟩ := h
      subst hi
      subst hs
      exact ⟨rfl, fun j hj => absurd hj (Nat.not_lt_zero j), rfl⟩

/-- C9: the NASM register pool. Reset marks every register free; a successful
allocation returns the lowest-indexed free register and marks exactly it
used, and allocation is fatal exactly when no register is free; freeing a
used register marks it free, and freeing an already-free register is fatal
(double-free detection). -/
theorem registerPool_spec (s : List Bool) (r : Nat) :
    (∀ i, i < NUMFREEREGISTERS →
      (nasmResetRegisterPool s).get? i = some true) ∧
    (allocateRegister s = none ↔ ∀ b ∈ s, b = false) ∧
    (∀ (i : Nat) (s2 : List Bool), allocateRegister s = some (i, s2) →
      s.get? i = some true ∧ (∀ j, j < i → s.get? j = some false) ∧
      s2 = s.set i false) ∧
    (s.get? r = some false → freeRegister s r = some (s.set r true)) ∧
    (s.get? r = some true → freeRegister s r = none) := by
  refine ⟨fun i hi => ?_, allocateRegister_none_iff s,
    fun i s2 h => allocateRegister_some s i s2 h,
    fun h => ?_, fun h => ?_⟩
  · have hi4 : i < 4 := hi
    interval_cases i <;> rfl
  · unfold freeRegister
    rw [h]
  · unfold freeRegister
    rw [h]

/-- Witness for C9: freeing used register 0 of the pool `[used, free, free,
free]` frees it; freeing already-free register 1 of the full-free pool is
fatal; the reset pool has register 3 free; allocation on the pool with only
register 1 free returns index 1. -/
theorem registerPool_spec_witness :
    freeRegister [false, true, true, true] 0 = some [true, true, true, true] ∧
    freeRegister [true, true, true, true] 1 = none ∧
    (nasmResetRegisterPool []).get? 3 = some true ∧
    ([false, false, true, true].get? 1 = some false) := by
  refine ⟨?_, ?_, ?_, ?_⟩
  · exact (registerPool_spec [false, true, true, true] 0).2.2.2.1 rfl
  · exact (registerPool_spec [true, true, true, true] 1).2.2.2.2 rfl
  · exact (registerPool_spec [] 0).1 3 (by decide)
  · exact ((registerPool_spec [false, false, true, true] 0).2.2.1 2
      [false, false, false, true] rfl).2.1 1 (by decide)

/-! ## C5 -/

/-- C5: lowering an `A_IF` node emits, in order: the condition with the
freshly allocated false label as jump target, a register reset, the
then-branch, a reset — then, with no else-branch, just the false label
(one label consumed); with an else-branch, an unconditional jump to the
additionally allocated end label, the false label, the else-branch, a reset
and the end label (two labels consumed). The generator returns `NOREG`. -/
theorem codegenIf_spec (n : ASTnode) (id0 : Nat) :
    (n.right = none →
      codegenIfStatementAST n id0 =
        ([GenEvent.genAST n.left (Int.ofNat id0) n.op,
          GenEvent.resetRegisters,
          GenEvent.genAST n.middle NOLABEL n.op,
          GenEvent.resetRegisters,
          GenEvent.emitLabel (Int.ofNat id0)], id0 + 1, NOREG)) ∧
    (∀ e : ASTnode, n.right = some e →
      codegenIfStatementAST n id0 =
        ([GenEvent.genAST n.left (Int.ofNat id0) n.op,
          GenEvent.resetRegisters,
          GenEvent.genAST n.middle NOLABEL n.op,
          GenEvent.resetRegisters,
          GenEvent.jump (Int.ofNat (id0 + 1)),
          GenEvent.emitLabel (Int.ofNat id0),
          GenEvent.genAST (some e) NOREG n.op,
          GenEvent.resetRegisters,
          GenEvent.emitLabel (Int.ofNat (id0 + 1))], id0 + 2, NOREG)) := by
  constructor
  · intro h
    simp [codegenIfStatementAST, codegenGetLabelNumber, h]
  · intro e h
    simp [codegenIfStatementAST, codegenGetLabelNumber, h]

/-- Witness for C5: an else-less IF node starting from the initial label
counter consumes exactly the one false label `L1`. -/
theorem codegenIf_spec_witness :
    codegenIfStatementAST
      (makeASTNode A_IF P_NONE (some (makeASTLeaf A_INTEGERLITERAL P_CHAR 1))
        (some (makeASTLeaf A_INTEGERLITERAL P_CHAR 2)) none 0)
      initialLabelId =
    ([GenEvent.genAST (some (makeASTLeaf A_INTEGERLITERAL P_CHAR 1))
        (Int.ofNat 1) A_IF,
      GenEvent.resetRegisters,
      GenEvent.genAST (some (makeASTLeaf A_INTEGERLITERAL P_CHAR 2))
        NOLABEL A_IF,
      GenEvent.resetRegisters,
      GenEvent.emitLabel (Int.ofNat 1)], 2, NOREG) :=
  (codegenIf_spec
    (makeASTNode A_IF P_NONE (some (makeASTLeaf A_INTEGERLITERAL P_CHAR 1))
      (some (makeASTLeaf A_INTEGERLITERAL P_CHAR 2)) none 0)
    initialLabelId).1 rfl

/-! ## C6 -/

/-- C6: for each comparison operator, `nasmCompareAndJump` emits `cmp r1, r2`
followed by the inverse-condition jump to the supplied label and returns
`NOREG` (`A_EQ` emits `jne`, `A_NE` emits `je`, `A_LT` emits `jge`, `A_LE`
emits `jg`, `A_GT` emits `jle`, `A_GE` emits `jl`), and in each case the
emitted jump is taken exactly when the source-level comparison of the two
register values is false. The final three conjuncts are the dispatch of
`codegenAST`: comparison nodes use the compare-and-jump form exactly under an
`A_IF` or `A_WHILE` parent. -/
theorem nasmCompareAndJump_spec (r1 r2 : Nat) (label a b : Int) :
    (nasmCompareAndJump A_EQ r1 r2 label =
        some ([NasmInstr.cmp r1 r2,
          NasmInstr.jcc JumpMnemonic.jne label], NOREG) ∧
      (jumpTaken JumpMnemonic.jne a b ↔ ¬ a = b)) ∧
    (nasmCompareAndJump A_NE r1 r2 label =
        some ([NasmInstr.cmp r1 r2,
          NasmInstr.jcc JumpMnemonic.je label], NOREG) ∧
      (jumpTaken JumpMnemonic.je a b ↔ ¬ a ≠ b)) ∧
    (nasmCompareAndJump A_LT r1 r2 label =
        some ([NasmInstr.cmp r1 r2,
          NasmInstr.jcc JumpMnemonic.jge label], NOREG) ∧
      (jumpTaken JumpMnemonic.jge a b ↔ ¬ a < b)) ∧
    (nasmCompareAndJump A_LE r1 r2 label =
        some ([NasmInstr.cmp r1 r2,
          NasmInstr.jcc JumpMnemonic.jg label], NOREG) ∧
      (jumpTaken JumpMnemonic.jg a b ↔ ¬ a ≤ b)) ∧
    (nasmCompareAndJump A_GT r1 r2 label =
        some ([NasmInstr.cmp r1 r2,
          NasmInstr.jcc JumpMnemonic.jle label], NOREG) ∧
      (jumpTaken JumpMnemonic.jle a b ↔ ¬ b < a)) ∧
    (nasmCompareAndJump A_GE r1 r2 label =
        some ([NasmInstr.cmp r1 r2,
          NasmInstr.jcc JumpMnemonic.jl label], NOREG) ∧
      (jumpTaken JumpMnemonic.jl a b ↔ ¬ b ≤ a)) ∧
    codegenComparisonEmitsJump A_IF = true ∧
    codegenComparisonEmitsJump A_WHILE = true ∧
    codegenComparisonEmitsJump A_FUNCTION = false := by
  refine ⟨⟨rfl, ?_⟩, ⟨rfl, ?_⟩, ⟨rfl, ?_⟩, ⟨rfl, ?_⟩, ⟨rfl, ?_⟩, ⟨rfl, ?_⟩,
    rfl, rfl, rfl⟩ <;> simp [jumpTaken]
